import Mathlib

/-!
Shallow embedding of the navigation / simulated-universe movement code of
the StarRailAutoProxy repository (files under `src/sr/sim_uni/op/move_in_sim_uni.py`
and `src/sr/app.py`), together with theorems settling the specification claims.

External collaborators (screen capture, OpenCV feature matching, the minimap
analyser, the numpy helpers, the game controller) are modelled as oracle
parameters gathered in environment structures: the embedded functions are the
control flow of the Python source, which is what the claims are about.
Wall-clock time and game-world coordinates are modelled with `ℚ`.
-/

namespace SRProxy

/-- `basic.Point` — a 2D coordinate. -/
structure Point where
  x : ℚ
  y : ℚ
deriving DecidableEq, Repr

/-- `basic.Rect` — a screen rectangle (only carried around, never inspected here). -/
structure Rect where
  x1 : ℚ
  y1 : ℚ
  x2 : ℚ
  y2 : ℚ
deriving DecidableEq, Repr

/-- `basic.img.MatchResult` with its `data` payload (the Python object stores
arbitrary data; `move_in_sim_uni` stores the matched `SimUniLevelType` there). -/
structure MatchResult (α : Type) where
  center : Point
  confidence : ℚ
  data : α
deriving DecidableEq, Repr

/-- A feature-match hit before `MoveToNextLevel.get_next_level_type` tags it with
its level type (`cv2_utils.feature_match_for_one` result: position + confidence). -/
structure FeatureHit where
  center : Point
  confidence : ℚ
deriving DecidableEq, Repr

/-- `sr.operation.OperationOneRoundResult` as produced by the
`Operation.round_success / round_wait / round_retry / round_fail` helpers
(the `data` payload is omitted: no claim concerns it). -/
inductive OperationOneRoundResult where
  | success (status : Option String) (wait : Option ℚ)
  | wait (wait : Option ℚ)
  | retry (status : Option String) (wait : Option ℚ)
  | fail (status : Option String)
deriving DecidableEq, Repr

/-- Actuation commands issued to the `GameController` collaborator. -/
inductive Action where
  | stop_moving_forward
  | start_moving_forward
  | interact
  | turn_by_angle (angle : ℚ)
  | turn_by_pos (cur : Point) (target : Point) (angle : ℚ)
deriving DecidableEq, Repr

/-! ## MoveDirectlyInSimUni.cal_pos (move_in_sim_uni.py lines 54-85) -/

/-- The result of `mini_map.analyse_mini_map` (opaque to `cal_pos`, which only
passes it through). -/
structure MiniMapInfo where
  angle : ℚ
deriving DecidableEq, Repr

/-- The mutable fields of `MoveDirectly` that `cal_pos` reads. -/
structure MoveState where
  /-- `self.last_rec_time`: timestamp of the last recorded position (0 initially). -/
  last_rec_time : ℚ
  /-- `self.pos`: the list of recorded positions so far. -/
  pos : List Point
  /-- `self.start_pos`. -/
  start_pos : Point
  /-- `self.run_mode` (compared against `game_config_const.RUN_MODE_OFF`). -/
  run_mode : String
deriving Repr

/-- `game_config_const.RUN_MODE_OFF` (external constant; only its identity matters). -/
def RUN_MODE_OFF : String := "RUN_MODE_OFF"

/-- External collaborators consumed by `MoveDirectlyInSimUni.cal_pos`:
`controller.cal_move_distance_by_time`, `large_map.get_large_map_rect_by_pos`,
`mini_map.analyse_mini_map`, `sr.cal_pos.cal_character_pos_for_sim_uni` and
`controller.is_moving`, for a fixed frame `mm`. -/
structure CalPosEnv where
  cal_move_distance_by_time : ℚ → Bool → ℚ
  get_large_map_rect_by_pos : ℚ × ℚ × ℚ → Rect
  analyse_mini_map : MiniMapInfo
  cal_character_pos_for_sim_uni : Rect → MiniMapInfo → Bool → Option Point
  is_moving : Bool

/-- Lines 61-67: the elapsed time fed to the movement model, clamped from below. -/
def calPosMoveTime (last_rec_time now_time : ℚ) : ℚ :=
  if last_rec_time > 0 then
    let move_time := now_time - last_rec_time
    if move_time < 1 then 1 else move_time
  else 1

/-- Lines 68-85 of `cal_pos`, after `move_time` has been fixed: compute the
movement distance, the search window, analyse the minimap, and either return the
start position (no position recorded yet) or the visual-correction result. -/
def calPosCore (env : CalPosEnv) (st : MoveState) (move_time : ℚ) :
    Option Point × MiniMapInfo :=
  let move_distance :=
    env.cal_move_distance_by_time move_time (decide (st.run_mode ≠ RUN_MODE_OFF))
  let last_pos :=
    match st.pos.getLast? with
    | some p => p
    | none => st.start_pos
  let possible_pos := (last_pos.x, last_pos.y, move_distance)
  let lm_rect := env.get_large_map_rect_by_pos possible_pos
  let mm_info := env.analyse_mini_map
  if st.pos.length = 0 then
    (some st.start_pos, mm_info)
  else
    let next_pos := env.cal_character_pos_for_sim_uni lm_rect mm_info env.is_moving
    (next_pos, mm_info)

/-- `MoveDirectlyInSimUni.cal_pos` (lines 54-85). Returns the pair
`(next_pos, mm_info)`; when the visual correction returns `None` the function
logs an error and still returns normally. -/
def calPos (env : CalPosEnv) (st : MoveState) (now_time : ℚ) :
    Option Point × MiniMapInfo :=
  calPosCore env st (calPosMoveTime st.last_rec_time now_time)

/-! ## MoveDirectlyInSimUni.check_enemy_and_attack (lines 87-108) -/

/-- `SimUniEnterFight.STATUS_ENEMY_NOT_FOUND` — a class constant of the combat
sub-operation (`sr/sim_uni/op/sim_uni_battle.py`, not under `src/`); only its
identity is used by `check_enemy_and_attack`. -/
def STATUS_ENEMY_NOT_FOUND : String := "STATUS_ENEMY_NOT_FOUND"

/-- `sr.operation.OperationResult` — the terminal result of a whole
sub-operation (`data` payload omitted). -/
structure OperationResult where
  success : Bool
  status : Option String
deriving DecidableEq, Repr

/-- The mutable fields of `MoveDirectlyInSimUni` that `check_enemy_and_attack`
reads and writes. -/
structure EnemyCheckState where
  /-- `self.no_battle`. -/
  no_battle : Bool
  /-- `self.last_auto_fight_fail`: last combat search found no enemy. -/
  last_auto_fight_fail : Bool
  /-- `self.last_battle_time`. -/
  last_battle_time : ℚ
  /-- `self.last_rec_time`. -/
  last_rec_time : ℚ
deriving DecidableEq, Repr

/-- `MoveDirectlyInSimUni.check_enemy_and_attack` (lines 87-108).
Inputs: the current state, whether `mini_map.is_under_attack(mm)` holds, the
result the combat sub-operation `SimUniEnterFight.execute()` would return if
invoked, and the two successive `time.time()` readings of lines 105-106.
Output: the new state, the optional round result (`None` means: keep moving),
and the list of actions performed (`fight_executed` marks that the combat
sub-operation was entered). -/
def checkEnemyAndAttack (st : EnemyCheckState) (under_attack : Bool)
    (fight_result : OperationResult) (t_battle t_rec : ℚ) :
    EnemyCheckState × Option OperationOneRoundResult × List Action × Bool :=
  if st.no_battle then
    (st, none, [], false)
  else if st.last_auto_fight_fail then
    (st, none, [], false)
  else if !under_attack then
    (st, none, [], false)
  else if !fight_result.success then
    (st, some (.fail fight_result.status), [.stop_moving_forward], true)
  else
    ({ st with
        last_auto_fight_fail := fight_result.status = some STATUS_ENEMY_NOT_FOUND,
        last_battle_time := t_battle,
        last_rec_time := t_rec },
     some (.wait none), [.stop_moving_forward], true)

/-! ## MoveToNextLevel (lines 111-276) -/

/-- `MoveToNextLevel.get_next_level_type` (lines 165-193): feature-match the
frame against the template of every level type of `SimUniLevelTypeEnum` and
collect the hits, each tagged with its level type. The enum catalogue and the
matcher (`cv2_utils.feature_match_for_one` applied to the level type's
template) are external collaborators, passed as parameters; `α` stands for
`SimUniLevelType`. -/
def getNextLevelType {α : Type} (enums : List α)
    (feature_match : α → Option FeatureHit) : List (MatchResult α) :=
  enums.filterMap fun level_type =>
    (feature_match level_type).map fun r =>
      { center := r.center, confidence := r.confidence, data := level_type }

/-- The `for idx, type_pos in enumerate(type_list)` scan of lines 219-221: the
index of the first entry whose `data` equals the prioritized level type. -/
def findLevelTypeIdx {α : Type} [DecidableEq α] (k : α) :
    List (MatchResult α) → Option ℕ
  | [] => none
  | tp :: rest =>
    if tp.data = k then some 0 else (findLevelTypeIdx k rest).map (· + 1)

/-- `MoveToNextLevel.match_best_level_type` inner loop (lines 215-223): walk the
priority id list; skip ids that map to no level type; otherwise return the
first index in `type_list` whose `data` equals the prioritized type, falling
through to the next id when absent; `0` when the list is exhausted.
`level_type_from_id` (`sim_uni_const`, not under `src/`) is a parameter. -/
def matchBestByPriority {α : Type} [DecidableEq α] (type_list : List (MatchResult α))
    (level_type_from_id : String → Option α) : List String → ℕ
  | [] => 0
  | priority_id :: rest =>
    match level_type_from_id priority_id with
    | none => matchBestByPriority type_list level_type_from_id rest
    | some priority_level_type =>
      match findLevelTypeIdx priority_level_type type_list with
      | some idx => idx
      | none => matchBestByPriority type_list level_type_from_id rest

/-- `MoveToNextLevel.match_best_level_type` (lines 204-223). `level_priority`
models the optional `SimUniNextLevelPriority` through its `id_list` field. -/
def matchBestLevelType {α : Type} [DecidableEq α] (type_list : List (MatchResult α))
    (level_type_from_id : String → Option α)
    (level_priority : Option (List String)) : ℕ :=
  match level_priority with
  | none => 0
  | some id_list => matchBestByPriority type_list level_type_from_id id_list

/-! ## Interaction trigger: MoveToNextLevel._try_interact / _can_interact (lines 251-275) -/

/-- Longest-common-subsequence length of two character lists. -/
def lcsLen : List Char → List Char → ℕ
  | [], _ => 0
  | _ :: _, [] => 0
  | a :: as, b :: bs =>
    if a = b then lcsLen as bs + 1
    else max (lcsLen (a :: as) bs) (lcsLen as (b :: bs))
termination_by xs ys => xs.length + ys.length
decreasing_by all_goals simp_arith

/-- Modelled from the spec: `basic.str_utils.find_by_lcs` (not under `src/`)
"reports present/absent by fuzzy substring match (longest-common-subsequence
based, tolerant of recognition noise) against an expected prompt phrase" — true
when the LCS of the expected word and the recognized text reaches the fraction
`lcs_percent` of the expected word's length. -/
def findByLcs (lcs_percent : ℚ) (word text : String) : Bool :=
  decide ((lcsLen word.toList text.toList : ℚ) ≥ lcs_percent * word.toList.length)

/-- External collaborators of `_can_interact`: cropping to
`Interact.SINGLE_LINE_INTERACT_RECT` (a constant of `sr/operation/unit/interact.py`,
not under `src/`), single-line OCR, the `gt(·, 'ocr')` i18n lookup, and the
default `lcs_percent` of `find_by_lcs`. `σ` is the image type. -/
structure InteractEnv (σ : Type) where
  crop_single_line_rect : σ → σ
  ocr_for_single_line : σ → String
  gt_ocr : String → String
  lcs_percent : ℚ

/-- `MoveToNextLevel._can_interact` (lines 265-275), with the expected prompt
`word` a parameter (`'区域'` at this call site;
`MoveToMiniMapInteractIcon._can_interact`, lines 454-465, is the same code with
`self.interact_word`). -/
def canInteract {σ : Type} (env : InteractEnv σ) (screen : σ) (word : String) : Bool :=
  let part := env.crop_single_line_rect screen
  let ocr_result := env.ocr_for_single_line part
  findByLcs env.lcs_percent (env.gt_ocr word) ocr_result

/-- `MoveToNextLevel._try_interact` (lines 251-263): when the prompt is
recognized, stop forward motion, fire the interact command, set
`self.interacted`, and return `round_wait(wait=0.25)`; otherwise return `None`.
Output: round result, actions issued, new `interacted` flag. -/
def tryInteract {σ : Type} (env : InteractEnv σ) (screen : σ) (word : String)
    (interacted : Bool) : Option OperationOneRoundResult × List Action × Bool :=
  if canInteract env screen word then
    (some (.wait (some (1/4))), [.stop_moving_forward, .interact], true)
  else
    (none, [], interacted)

/-! ## Pause hooks (lines 225-236, 382-473) -/

/-- Modelled from the spec: `Operation.on_pause` of the generic Operation State
Machine (`sr/operation/__init__.py`, not under `src/`). Per the spec the
executor is generic and "depends on nothing below it"; actuation commands are
issued by node functions, so the base pause hook performs no actuation. -/
def Operation_on_pause_actions : List Action := []

/-- `MoveToMiniMapInteractIcon.on_pause` (lines 471-473): `super().on_pause()`
followed by `controller.stop_moving_forward()`. -/
def MoveToMiniMapInteractIcon_on_pause_actions : List Action :=
  Operation_on_pause_actions ++ [.stop_moving_forward]

/-- `MoveToNextLevel` (lines 111-276) defines no `on_pause` override, so pausing
it runs only the inherited base hook. -/
def MoveToNextLevel_on_pause_actions : List Action :=
  Operation_on_pause_actions

/-- `MoveToNextLevel._move_towards` (lines 225-236): turn by the computed angle,
then `start_moving_forward`. -/
def MoveToNextLevel_move_towards_actions (angle_to_turn : ℚ) : List Action :=
  [.turn_by_angle angle_to_turn, .start_moving_forward]

/-! ## MoveToNextLevelByRoute._turn_to_entry (lines 310-328) -/

/-- `sr.sim_uni.sim_uni_route.SimUniRoute` — the fields read here. -/
structure SimUniRoute where
  event_pos_list : List Point
  next_pos_list : List Point
deriving DecidableEq, Repr

/-- External collaborators of `_turn_to_entry`: `np.mean(·, dtype=np.uint8)`
(numpy) and the minimap angle of the current frame. -/
structure TurnToEntryEnv where
  np_mean : List ℚ → ℚ
  mm_angle : ℚ

/-- `MoveToNextLevelByRoute._turn_to_entry` (lines 310-328): empty
`event_pos_list` is `round_fail('未配置入口坐标')`; otherwise turn towards the
mean of the entry coordinates and return `round_success(wait=0.5)`. -/
def turnToEntry (env : TurnToEntryEnv) (route : SimUniRoute) (current_pos : Point) :
    OperationOneRoundResult × List Action :=
  if route.event_pos_list.length = 0 then
    (.fail (some "未配置入口坐标"), [])
  else
    let target := Point.mk (env.np_mean (route.event_pos_list.map (·.x)))
                           (env.np_mean (route.event_pos_list.map (·.y)))
    (.success none (some (1/2)), [.turn_by_pos current_pos target env.mm_angle])

/-- Terminal outcome of executing one operation node to completion. -/
inductive NodeOutcome where
  | success (status : Option String)
  | fail (status : Option String)
deriving DecidableEq, Repr

/-- Modelled from the spec: the per-node loop of the Operation State Machine
(`sr/operation/__init__.py`, not under `src/`): Success and Fail are terminal,
Retry re-invokes the same step consuming retry budget (exhaustion becomes
`Fail(RetryExhausted)`), Wait re-invokes without consuming budget. `step n` is
the result of the `n`-th invocation; `fuel` bounds the cooperative loop; the
returned pair is the outcome and the number of step invocations made. -/
def runNode (step : ℕ → OperationOneRoundResult) :
    ℕ → ℕ → ℕ → Option (NodeOutcome × ℕ)
  | 0, _, _ => none
  | fuel + 1, budget, calls =>
    match step calls with
    | .success s _ => some (.success s, calls + 1)
    | .fail s => some (.fail s, calls + 1)
    | .wait _ => runNode step fuel budget (calls + 1)
    | .retry _ _ =>
      match budget with
      | 0 => some (.fail (some "RetryExhausted"), calls + 1)
      | b + 1 => runNode step fuel b (calls + 1)

/-! ## sr/app.py get_context (lines 27-38) -/

/-- `sr.app.Context` with the components `get_context` populates; each component
instance is represented by the value of the fresh-object counter at its
construction, so "the same object" is "the same tag". -/
structure AppContext where
  config : ℕ
  image : ℕ
  matcher : ℕ
  ocr : ℕ
  map_cal : ℕ
  controller : ℕ
deriving DecidableEq, Repr

/-- The six component constructions of `get_context`'s first call (lines 31-37):
`ConfigHolder()`, `ImageHolder()`, `CvImageMatcher(image)`, `OcrMatcher()`,
`MapCalculator(im, config)`, `PcController(win)`, each yielding a fresh object. -/
def buildContext (fresh : ℕ) : AppContext :=
  { config := fresh, image := fresh + 1, matcher := fresh + 2,
    ocr := fresh + 3, map_cal := fresh + 4, controller := fresh + 5 }

/-- Process state around `get_context`: the `global_context` module global and
the fresh-object counter. -/
structure AppWorld where
  global_context : Option AppContext
  fresh : ℕ
deriving DecidableEq, Repr

/-- `sr.app.get_context` (lines 27-38): return the stored `Context` when the
global is set; otherwise construct and populate a new `Context`, store it, and
return it. -/
def get_context (w : AppWorld) : AppContext × AppWorld :=
  match w.global_context with
  | some ctx => (ctx, w)
  | none =>
    let ctx := buildContext w.fresh
    (ctx, { global_context := some ctx, fresh := w.fresh + 6 })

/-! ## Concrete sample collaborators, used to evaluate the definitions -/

/-- A concrete collaborator environment for `cal_pos` whose visual correction
always fails (no confident match). -/
def failCalPosEnv : CalPosEnv where
  cal_move_distance_by_time := fun t r => if r then 9 * t else 5 * t
  get_large_map_rect_by_pos := fun _ => ⟨0, 0, 100, 100⟩
  analyse_mini_map := ⟨90⟩
  cal_character_pos_for_sim_uni := fun _ _ _ => none
  is_moving := true

/-- A concrete collaborator environment for `cal_pos` whose visual correction
succeeds at a fixed point. -/
def okCalPosEnv : CalPosEnv :=
  { failCalPosEnv with cal_character_pos_for_sim_uni := fun _ _ _ => some ⟨7, 8⟩ }

/-- Scenario landmark match of kind `A`, confidence 0.9. -/
def scenarioMatchA : MatchResult String := ⟨⟨100, 200⟩, 9 / 10, "A"⟩

/-- Scenario landmark match of kind `B`, confidence 0.95. -/
def scenarioMatchB : MatchResult String := ⟨⟨300, 400⟩, 19 / 20, "B"⟩

/-- Scenario `level_type_from_id`: the ids `A` and `B` name the two kinds. -/
def scenarioLtfi : String → Option String := fun s =>
  if s = "A" then some "A" else if s = "B" then some "B" else none

/-- A concrete `_turn_to_entry` environment. -/
def sampleTurnEnv : TurnToEntryEnv := ⟨fun _ => 0, 90⟩

/-- A concrete interaction-trigger environment over trivial screens: the OCR
always reads `区域` and the i18n lookup is the identity. -/
def sampleInteractEnv : InteractEnv Unit where
  crop_single_line_rect := fun s => s
  ocr_for_single_line := fun _ => "区域"
  gt_ocr := fun w => w
  lcs_percent := 1

/-! ## Claim theorems -/

/-- C10: `cal_pos` clamps the dead-reckoning elapsed time from below: when no
previous record exists (`last_rec_time ≤ 0`) or the measured elapsed time is
below one second, the result is computed with an elapsed time of exactly one
second; and when no position has been recorded yet, `cal_pos` returns the
start position unchanged. -/
theorem calPos_clamps_move_time (env : CalPosEnv) (st : MoveState) (now_time : ℚ) :
    (st.last_rec_time ≤ 0 ∨ now_time - st.last_rec_time < 1 →
      calPos env st now_time = calPosCore env st 1) ∧
    (st.pos = [] → (calPos env st now_time).1 = some st.start_pos) := by
  constructor
  · intro h
    have hmt : calPosMoveTime st.last_rec_time now_time = 1 := by
      unfold calPosMoveTime
      by_cases h0 : st.last_rec_time > 0
      · rw [if_pos h0]
        show (if now_time - st.last_rec_time < 1 then (1 : ℚ)
              else now_time - st.last_rec_time) = 1
        rcases h with h | h
        · exact absurd h0 (not_lt.mpr h)
        · rw [if_pos h]
      · rw [if_neg h0]
    rw [calPos, hmt]
  · intro hpos
    rw [calPos]
    unfold calPosCore
    simp [hpos]

/-- C10 witness: with no record yet (`last_rec_time = 0`, empty `pos`), the
result at time 5 is the one computed with elapsed time 1, and the returned
position is the start position. -/
theorem calPos_clamps_move_time_witness :
    calPos okCalPosEnv ⟨0, [], ⟨3, 4⟩, RUN_MODE_OFF⟩ 5 =
      calPosCore okCalPosEnv ⟨0, [], ⟨3, 4⟩, RUN_MODE_OFF⟩ 1 ∧
    (calPos okCalPosEnv ⟨0, [], ⟨3, 4⟩, RUN_MODE_OFF⟩ 5).1 = some ⟨3, 4⟩ :=
  ⟨(calPos_clamps_move_time okCalPosEnv ⟨0, [], ⟨3, 4⟩, RUN_MODE_OFF⟩ 5).1
      (Or.inl le_rfl),
   (calPos_clamps_move_time okCalPosEnv ⟨0, [], ⟨3, 4⟩, RUN_MODE_OFF⟩ 5).2 rfl⟩

/-- C1 counterexample: at last position (100, 100) with 2 seconds elapsed and
the visual correction failing, `cal_pos` returns `none` as the position — not
the dead-reckoned prediction (in particular not (100, 120), the point the
spec's walking-speed scenario predicts). -/
theorem calPos_no_deadreckon_fallback :
    (calPos failCalPosEnv ⟨1, [⟨100, 100⟩], ⟨100, 100⟩, RUN_MODE_OFF⟩ 3).1 = none ∧
    (calPos failCalPosEnv ⟨1, [⟨100, 100⟩], ⟨100, 100⟩, RUN_MODE_OFF⟩ 3).1 ≠
      some ⟨100, 120⟩ := by
  have h : (calPos failCalPosEnv ⟨1, [⟨100, 100⟩], ⟨100, 100⟩, RUN_MODE_OFF⟩ 3).1 =
      none := rfl
  exact ⟨h, by rw [h]; simp⟩

/-- C1 amended: for every cycle in which the visual correction fails (returns
no position) and at least one position has been recorded, `cal_pos` returns
`(None, mm_info)` — the position is `None`, the minimap analysis is still
produced and the call returns normally instead of aborting; the dead-reckoned
prediction only centres the visual search window. -/
theorem calPos_fail_returns_none (env : CalPosEnv) (st : MoveState) (now_time : ℚ)
    (hfail : ∀ r m b, env.cal_character_pos_for_sim_uni r m b = none)
    (hpos : st.pos ≠ []) :
    calPos env st now_time = (none, env.analyse_mini_map) := by
  rw [calPos]
  unfold calPosCore
  have hlen : ¬ st.pos.length = 0 := by simpa using hpos
  simp [hlen, hfail]

/-- C1 amended witness: the concrete failing cycle of the counterexample
returns `(none, mm_info)`. -/
theorem calPos_fail_returns_none_witness :
    calPos failCalPosEnv ⟨1, [⟨100, 100⟩], ⟨100, 100⟩, RUN_MODE_OFF⟩ 3 =
      (none, ⟨90⟩) :=
  calPos_fail_returns_none failCalPosEnv ⟨1, [⟨100, 100⟩], ⟨100, 100⟩, RUN_MODE_OFF⟩ 3
    (fun _ _ _ => rfl) (by simp)

/-- C3 counterexample: when the combat sub-operation returns
`Fail(EnemyNotFound)` (`success = false`), `check_enemy_and_attack` fails the
round and does NOT set the suppression flag — movement does not resume, and
no suppression is armed. -/
theorem checkEnemy_fail_no_suppression :
    (checkEnemyAndAttack ⟨false, false, 0, 0⟩ true
        ⟨false, some STATUS_ENEMY_NOT_FOUND⟩ 10 10).2.1 =
      some (.fail (some STATUS_ENEMY_NOT_FOUND)) ∧
    (checkEnemyAndAttack ⟨false, false, 0, 0⟩ true
        ⟨false, some STATUS_ENEMY_NOT_FOUND⟩ 10 10).1.last_auto_fight_fail =
      false :=
  ⟨rfl, rfl⟩

/-- C3 amended: the suppression flag `last_auto_fight_fail` is set when the
combat sub-operation returns SUCCESS with status `ENEMY_NOT_FOUND`; on every
subsequent cycle while the flag is set, `check_enemy_and_attack` returns
`None` without entering combat even if the enemy indicator is present; when
the sub-operation returns `Fail`, the round fails (the operation aborts) and
the flag is left unchanged. -/
theorem checkEnemy_suppression (st : EnemyCheckState) (fr : OperationResult)
    (tb tr : ℚ)
    (h1 : st.no_battle = false) (h2 : st.last_auto_fight_fail = false) :
    (fr.success = true → fr.status = some STATUS_ENEMY_NOT_FOUND →
      (checkEnemyAndAttack st true fr tb tr).1.last_auto_fight_fail = true) ∧
    (∀ st' : EnemyCheckState, st'.no_battle = false →
      st'.last_auto_fight_fail = true →
      ∀ (ua : Bool) (fr' : OperationResult) (tb' tr' : ℚ),
        checkEnemyAndAttack st' ua fr' tb' tr' = (st', none, [], false)) ∧
    (fr.success = false →
      (checkEnemyAndAttack st true fr tb tr).2.1 = some (.fail fr.status) ∧
      (checkEnemyAndAttack st true fr tb tr).1 = st) := by
  refine ⟨?_, ?_, ?_⟩
  · intro hs hst
    unfold checkEnemyAndAttack
    simp [h1, h2, hs, hst]
  · intro st' h1' h2' ua fr' tb' tr'
    unfold checkEnemyAndAttack
    simp [h1', h2']
  · intro hs
    unfold checkEnemyAndAttack
    simp [h1, h2, hs]

/-- C3 amended witness: a success with status `ENEMY_NOT_FOUND` at time 10
arms the flag; with the flag armed, the next cycle under attack returns
`None`, entering no combat. -/
theorem checkEnemy_suppression_witness :
    (checkEnemyAndAttack ⟨false, false, 0, 0⟩ true
        ⟨true, some STATUS_ENEMY_NOT_FOUND⟩ 10 10).1.last_auto_fight_fail =
      true ∧
    checkEnemyAndAttack ⟨false, true, 10, 10⟩ true ⟨true, none⟩ 20 20 =
      (⟨false, true, 10, 10⟩, none, [], false) :=
  ⟨(checkEnemy_suppression ⟨false, false, 0, 0⟩
      ⟨true, some STATUS_ENEMY_NOT_FOUND⟩ 10 10 rfl rfl).1 rfl rfl,
   (checkEnemy_suppression ⟨false, false, 0, 0⟩
      ⟨true, some STATUS_ENEMY_NOT_FOUND⟩ 10 10 rfl rfl).2.1
      ⟨false, true, 10, 10⟩ rfl rfl true ⟨true, none⟩ 20 20⟩

/-- C7: when combat is entered (not suppressed, enemy indicator present) and
the combat sub-operation returns successfully, `check_enemy_and_attack`
resets the localization timestamp baseline `last_rec_time` to the
post-combat `time.time()` reading, and the round continues (`round_wait`). -/
theorem checkEnemy_resets_rec_time (st : EnemyCheckState) (fr : OperationResult)
    (t_battle t_rec : ℚ)
    (h1 : st.no_battle = false) (h2 : st.last_auto_fight_fail = false)
    (h3 : fr.success = true) :
    (checkEnemyAndAttack st true fr t_battle t_rec).1.last_rec_time = t_rec ∧
    (checkEnemyAndAttack st true fr t_battle t_rec).2.1 = some (.wait none) := by
  unfold checkEnemyAndAttack
  simp [h1, h2, h3]

/-- C7 witness: a successful combat resolution at time 60 resets
`last_rec_time` from 2 to 60 and returns `round_wait`. -/
theorem checkEnemy_resets_rec_time_witness :
    (checkEnemyAndAttack ⟨false, false, 2, 2⟩ true ⟨true, none⟩ 50 60).1.last_rec_time =
      60 ∧
    (checkEnemyAndAttack ⟨false, false, 2, 2⟩ true ⟨true, none⟩ 50 60).2.1 =
      some (.wait none) :=
  checkEnemy_resets_rec_time ⟨false, false, 2, 2⟩ ⟨true, none⟩ 50 60 rfl rfl rfl

/-- A kind absent from the whole match list is never found by the scan. -/
theorem findLevelTypeIdx_eq_none {α : Type} [DecidableEq α] (k : α)
    (l : List (MatchResult α)) (h : ∀ tp ∈ l, tp.data ≠ k) :
    findLevelTypeIdx k l = none := by
  induction l with
  | nil => rfl
  | cons tp rest ih =>
    unfold findLevelTypeIdx
    rw [if_neg (h tp (List.mem_cons_self tp rest)),
      ih (fun x hx => h x (List.mem_cons_of_mem _ hx))]
    rfl

/-- The scan returns exactly the first index whose kind is `k`. -/
theorem findLevelTypeIdx_eq_some {α : Type} [DecidableEq α] (k : α)
    (l : List (MatchResult α)) (idx : ℕ)
    (hget : (l.get? idx).map (·.data) = some k)
    (hfirst : ∀ j < idx, (l.get? j).map (·.data) ≠ some k) :
    findLevelTypeIdx k l = some idx := by
  induction l generalizing idx with
  | nil => simp at hget
  | cons tp rest ih =>
    unfold findLevelTypeIdx
    cases idx with
    | zero =>
      rw [if_pos (by simpa using hget)]
    | succ n =>
      have h0 : ¬ tp.data = k := by
        have h00 := hfirst 0 (Nat.succ_pos n)
        simpa using h00
      rw [if_neg h0, ih n (by simpa using hget)
        (fun j hj => by simpa using hfirst (j + 1) (Nat.succ_lt_succ hj))]
      rfl

/-- Priority entries none of whose kinds are present are skipped. -/
theorem matchBestByPriority_append_miss {α : Type} [DecidableEq α]
    (type_list : List (MatchResult α)) (ltfi : String → Option α)
    (ids₁ rest : List String)
    (h : ∀ q ∈ ids₁, ∀ k, ltfi q = some k → ∀ tp ∈ type_list, tp.data ≠ k) :
    matchBestByPriority type_list ltfi (ids₁ ++ rest) =
      matchBestByPriority type_list ltfi rest := by
  induction ids₁ with
  | nil => rfl
  | cons q qs ih =>
    have hq := h q (List.mem_cons_self q qs)
    have ihq := ih (fun x hx => h x (List.mem_cons_of_mem _ hx))
    rw [List.cons_append]
    cases hlt : ltfi q with
    | none =>
      simp only [matchBestByPriority, hlt]
      exact ihq
    | some k =>
      simp only [matchBestByPriority, hlt,
        findLevelTypeIdx_eq_none k type_list (hq k hlt)]
      exact ihq

/-- C2: `match_best_level_type` is a pure function of its inputs (hence
deterministic); with no priority it returns index 0; with a priority list
none of whose kinds is present among the matches it returns index 0;
otherwise it returns the index in the match list of the first occurrence of
the first prioritized kind that is present; and on the scenario matches A
(confidence 0.9) and B (confidence 0.95) with priority list [B, A] the
selected index is 1, the match of kind B. -/
theorem matchBestLevelType_priority {α : Type} [DecidableEq α]
    (type_list : List (MatchResult α)) (ltfi : String → Option α) :
    (matchBestLevelType type_list ltfi none = 0) ∧
    (∀ ids, (∀ pid ∈ ids, ∀ k, ltfi pid = some k → ∀ tp ∈ type_list, tp.data ≠ k) →
      matchBestLevelType type_list ltfi (some ids) = 0) ∧
    (∀ (ids₁ : List String) (pid : String) (ids₂ : List String) (k : α) (idx : ℕ),
      (∀ q ∈ ids₁, ∀ k2, ltfi q = some k2 → ∀ tp ∈ type_list, tp.data ≠ k2) →
      ltfi pid = some k →
      (type_list.get? idx).map (·.data) = some k →
      (∀ j < idx, (type_list.get? j).map (·.data) ≠ some k) →
      matchBestLevelType type_list ltfi (some (ids₁ ++ pid :: ids₂)) = idx) ∧
    (matchBestLevelType [scenarioMatchA, scenarioMatchB] scenarioLtfi
        (some ["B", "A"]) = 1 ∧
      scenarioMatchB.data = "B" ∧ scenarioMatchB.confidence = 19 / 20) := by
  refine ⟨rfl, ?_, ?_, ?_, rfl, rfl⟩
  · intro ids h
    have h1 := matchBestByPriority_append_miss type_list ltfi ids [] h
    simpa [matchBestLevelType] using h1
  · intro ids₁ pid ids₂ k idx h1 h2 h3 h4
    show matchBestByPriority type_list ltfi (ids₁ ++ pid :: ids₂) = idx
    rw [matchBestByPriority_append_miss type_list ltfi ids₁ (pid :: ids₂) h1]
    simp only [matchBestByPriority, h2, findLevelTypeIdx_eq_some k type_list idx h3 h4]
  · rfl

/-- C2 witness: with priority list [X, B] where id X names no kind, the
selected index is 1 (the first and only match of kind B). -/
theorem matchBestLevelType_priority_witness :
    matchBestLevelType [scenarioMatchA, scenarioMatchB] scenarioLtfi
      (some ["X", "B"]) = 1 :=
  (matchBestLevelType_priority [scenarioMatchA, scenarioMatchB] scenarioLtfi).2.2.1
    ["X"] "B" [] "B" 1
    (by
      intro q hq k2 hk2
      simp only [List.mem_singleton] at hq
      subst hq
      simp [scenarioLtfi] at hk2)
    (by simp [scenarioLtfi])
    (by simp [scenarioMatchB])
    (by
      intro j hj
      have hj0 : j = 0 := Nat.lt_one_iff.mp hj
      subst hj0
      simp [scenarioMatchA])

/-- C4 counterexample: `MoveToNextLevel` commands continuous forward motion
(`_move_towards` issues `start_moving_forward`) yet defines no pause hook, so
invoking pause issues no `stop_moving_forward` actuation. -/
theorem moveToNextLevel_pause_no_stop :
    Action.start_moving_forward ∈ MoveToNextLevel_move_towards_actions 30 ∧
    Action.stop_moving_forward ∉ MoveToNextLevel_on_pause_actions := by
  constructor
  · simp [MoveToNextLevel_move_towards_actions]
  · simp [MoveToNextLevel_on_pause_actions, Operation_on_pause_actions]

/-- C4 amended: invoking pause on `MoveToMiniMapInteractIcon` (and its
subclasses) unconditionally issues a `stop_moving_forward` actuation; but
`MoveToNextLevel`, which also commands continuous forward motion, defines no
pause stop hook, so pausing it issues no `stop_moving_forward`. -/
theorem pause_stop_hooks :
    Action.stop_moving_forward ∈ MoveToMiniMapInteractIcon_on_pause_actions ∧
    Action.stop_moving_forward ∉ MoveToNextLevel_on_pause_actions := by
  constructor
  · simp [MoveToMiniMapInteractIcon_on_pause_actions, Operation_on_pause_actions]
  · simp [MoveToNextLevel_on_pause_actions, Operation_on_pause_actions]

/-- C5: for every frame in which no landmark template produces a
feature-match hit (no match above the confidence floor),
`get_next_level_type` returns the empty list — by its type always a list,
never an absent or undefined value. -/
theorem getNextLevelType_empty {α : Type} (enums : List α)
    (feature_match : α → Option FeatureHit)
    (h : ∀ e ∈ enums, feature_match e = none) :
    getNextLevelType enums feature_match = [] := by
  unfold getNextLevelType
  rw [List.filterMap_eq_nil_iff]
  intro a ha
  rw [h a ha]
  rfl

/-- C5 witness: a two-kind catalogue whose matcher finds nothing yields `[]`. -/
theorem getNextLevelType_empty_witness :
    getNextLevelType ["kind_a", "kind_b"] (fun _ => none) = [] :=
  getNextLevelType_empty ["kind_a", "kind_b"] (fun _ => none) (fun _ _ => rfl)

/-- C6: with an empty configured entry-point list, `_turn_to_entry` returns
`round_fail('未配置入口坐标')`, and the node executor therefore terminates the
node as failed after exactly one invocation — a terminal Fail, never
retried, for every retry budget and fuel. -/
theorem turnToEntry_empty_fail (env : TurnToEntryEnv) (route : SimUniRoute)
    (current_pos : Point) (fuel budget : ℕ) (h : route.event_pos_list = []) :
    (turnToEntry env route current_pos).1 = .fail (some "未配置入口坐标") ∧
    runNode (fun _ => (turnToEntry env route current_pos).1) (fuel + 1) budget 0 =
      some (.fail (some "未配置入口坐标"), 1) := by
  have h1 : (turnToEntry env route current_pos).1 = .fail (some "未配置入口坐标") := by
    unfold turnToEntry
    simp [h]
  refine ⟨h1, ?_⟩
  rw [show (fun _ : ℕ => (turnToEntry env route current_pos).1) =
      (fun _ : ℕ => OperationOneRoundResult.fail (some "未配置入口坐标")) from
    funext fun _ => h1]
  rfl

/-- C6 witness: a route with no entry coordinates fails the node on its first
invocation, with retry budget 5 remaining. -/
theorem turnToEntry_empty_fail_witness :
    runNode (fun _ => (turnToEntry sampleTurnEnv ⟨[], []⟩ ⟨0, 0⟩).1) 9 5 0 =
      some (.fail (some "未配置入口坐标"), 1) :=
  (turnToEntry_empty_fail sampleTurnEnv ⟨[], []⟩ ⟨0, 0⟩ 8 5 rfl).2

/-- C8: the interaction trigger crops the fixed single-line prompt region,
runs single-line text recognition on it, and reports the prompt present if
and only if the LCS of the expected word and the recognized text reaches the
fuzzy-match fraction; when present it stops forward motion, fires the
interact command and enters a 0.25s confirmation wait; when absent it does
nothing. -/
theorem interaction_trigger_spec {σ : Type} (env : InteractEnv σ) (screen : σ)
    (word : String) (interacted : Bool) :
    (canInteract env screen word = true ↔
      env.lcs_percent * (env.gt_ocr word).toList.length ≤
        (lcsLen (env.gt_ocr word).toList
          (env.ocr_for_single_line (env.crop_single_line_rect screen)).toList : ℚ)) ∧
    (canInteract env screen word = true →
      tryInteract env screen word interacted =
        (some (.wait (some (1 / 4))), [.stop_moving_forward, .interact], true)) ∧
    (canInteract env screen word = false →
      tryInteract env screen word interacted = (none, [], interacted)) := by
  refine ⟨?_, ?_, ?_⟩
  · simp [canInteract, findByLcs, ge_iff_le]
  · intro h
    simp [tryInteract, h]
  · intro h
    simp [tryInteract, h]

/-- C8 witness: with OCR reading exactly the expected prompt `区域` and a
full-coverage threshold, the trigger fires: stop, interact, wait 0.25s. -/
theorem interaction_trigger_spec_witness :
    tryInteract sampleInteractEnv () "区域" false =
      (some (.wait (some (1 / 4))), [.stop_moving_forward, .interact], true) :=
  (interaction_trigger_spec sampleInteractEnv () "区域" false).2.1
    (by
      show findByLcs 1 "区域" "区域" = true
      rw [findByLcs]
      norm_num [lcsLen])

/-- C9: `get_context` is an idempotent singleton accessor: a first call (the
global unset) constructs and populates the `Context`, advancing the
fresh-object counter by the six component constructions and storing the new
object in the global; every later call returns exactly the stored object with
the counter unchanged (no component reconstructed); and two consecutive calls
from any state return the same object and state. -/
theorem get_context_singleton :
    (∀ n : ℕ, get_context ⟨none, n⟩ =
      (buildContext n, ⟨some (buildContext n), n + 6⟩)) ∧
    (∀ (c : AppContext) (n : ℕ), get_context ⟨some c, n⟩ = (c, ⟨some c, n⟩)) ∧
    (∀ w : AppWorld, get_context (get_context w).2 =
      ((get_context w).1, (get_context w).2)) := by
  refine ⟨fun n => rfl, fun c n => rfl, fun w => ?_⟩
  obtain ⟨g, n⟩ := w
  cases g <;> rfl

end SRProxy
